import Mathlib

/-!
Shallow embedding of the NEBULA-MAPPING script (src/script.py): the visibility
classifier, compass-direction mapping, rise-time estimate, input loops
(location, time, nebula choice) and the equatorial→horizontal coordinate
transform, together with theorems settling the specification's claims.

Interactive `input()` calls are embedded as explicit lists of pending user
inputs; the geocoding service is an abstract function parameter; machine
floats are modelled by exact rationals (for the classifier arithmetic) and
reals (for the trigonometric transform).
-/

namespace Nebula

/-- Python's built-in `round` on an exact value: round half to even.
`round(x)` for the script's `round(azimuth / 22.5)` call. -/
def pyRound (q : ℚ) : ℤ :=
  let f : ℤ := ⌊q⌋
  let r : ℚ := q - f
  if r < 1/2 then f
  else if 1/2 < r then f + 1
  else if f % 2 = 0 then f else f + 1

/-- Python's `str.strip()`: drop whitespace from both ends. -/
def pyStrip (s : String) : String :=
  String.mk (((s.data.dropWhile Char.isWhitespace).reverse.dropWhile Char.isWhitespace).reverse)

/-- `calculate_visibility` from src/script.py lines 225-236, verbatim strings. -/
def calculate_visibility (altitude : ℚ) : String :=
  if altitude > 30 then "Excellent - High in the sky, ideal for observation"
  else if altitude > 15 then "Good - Reasonably high for observation"
  else if altitude > 5 then "Fair - Low in the sky, atmospheric effects noticeable"
  else if altitude > 0 then "Poor - Very low, near horizon. Wait for better time."
  else "Not visible - Below horizon"

/-- The `compass_points` list from `get_compass_direction`. -/
def compass_points : List String :=
  ["N", "NNE", "NE", "ENE", "E", "ESE", "SE", "SSE",
   "S", "SSW", "SW", "WSW", "W", "WNW", "NW", "NNW"]

/-- The list index computed by `get_compass_direction`:
`round(azimuth / 22.5) % 16` (Python `%` on a positive modulus is
nonnegative, matching `Int.emod`). -/
def compass_idx (azimuth : ℚ) : ℤ :=
  (pyRound (azimuth / (45/2))).emod 16

/-- `get_compass_direction` from src/script.py lines 239-244. Python list
indexing raises `IndexError` out of bounds, so the lookup is embedded as
`List.get?`; the script never checks the bound. -/
def get_compass_direction (azimuth : ℚ) : Option String :=
  compass_points.get? (compass_idx azimuth).toNat

/-- The rise-time estimate from src/script.py line 358:
`hours_till_rise = max((0 - alt) / 15, 0.1)`. -/
def hours_till_rise (alt : ℚ) : ℚ :=
  max ((0 - alt) / 15) (1/10)

/-- The nebula-choice loop of `main` (src/script.py lines 296-304): each
pending input is `some n` when `int(...)` succeeds and `none` when it raises
`ValueError`; out-of-range and unparseable inputs re-prompt. -/
def chooseNebula : List (Option ℤ) → Option ℤ
  | [] => none
  | none :: rest => chooseNebula rest
  | some n :: rest => if 1 ≤ n ∧ n ≤ 13 then some n else chooseNebula rest

/-- The default observer location hard-coded in src/script.py
(New York: 40.7128 N, -74.0060 E). -/
def defaultLocation : ℚ × ℚ := (40.7128, -74.0060)

/-- `get_location_by_coordinates` from src/script.py lines 126-135: each
pending input is `some q` when `float(...)` succeeds and `none` when it
raises `ValueError`. A failed parse aborts the `try` block (the second
prompt is not even reached when the first fails) and returns the default
location; there is no retry. -/
def get_location_by_coordinates : List (Option ℚ) → ℚ × ℚ
  | some lat :: some lon :: _ => (lat, lon)
  | _ => defaultLocation

/-- The possible outcomes of one `geolocator.geocode(...)` call in
`get_location_by_city`: a hit, a miss (`None`), the two caught geopy
exceptions, or any other exception. -/
inductive GeoResponse where
  | found (lat lon : ℚ) (address : String)
  | notFound
  | timedOut
  | serviceError
  | otherError (msg : String)
deriving DecidableEq

/-- The timeout passed to every geocode call (src/script.py line 109:
`geolocator.geocode(location_str, timeout=10)`). -/
def geocodeTimeoutSeconds : ℕ := 10

/-- `get_location_by_city` from src/script.py lines 93-123. The geocoding
service is the abstract `geocoder` (a function of the query and the timeout);
the pending user inputs are a list; the result pairs the returned coordinates
with the messages printed on the final iteration (`none` when the loop runs
out of input). An empty (stripped) input returns the default location without
calling the geocoder; a not-found response re-prompts; a timeout, service
error or other exception announces the fallback and returns the default. -/
def get_location_by_city (geocoder : String → ℕ → GeoResponse) :
    List String → Option ((ℚ × ℚ) × List String)
  | [] => none
  | s :: rest =>
    let t := pyStrip s
    if t = "" then
      some (defaultLocation, ["Using default location: New York, USA"])
    else
      match geocoder t geocodeTimeoutSeconds with
      | .found lat lon addr => some ((lat, lon), ["Found: " ++ addr])
      | .notFound =>
          (get_location_by_city geocoder rest).map
            (fun r => (r.1, "Location not found. Please try again." :: r.2))
      | .timedOut =>
          some (defaultLocation,
            ["Geocoding service error. Using default location: New York, USA"])
      | .serviceError =>
          some (defaultLocation,
            ["Geocoding service error. Using default location: New York, USA"])
      | .otherError m =>
          some (defaultLocation,
            ["Error: " ++ m ++ ". Using default location: New York, USA"])

/-- A parsed calendar date-time, the result of a successful
`datetime.strptime(date_str, "%Y-%m-%d %H:%M:%S")` (interpreted as UTC by the
subsequent `replace(tzinfo=pytz.UTC)`). -/
structure ParsedDateTime where
  year : ℕ
  month : ℕ
  day : ℕ
  hour : ℕ
  minute : ℕ
  second : ℕ
deriving DecidableEq

/-- The numeric value of a decimal digit character, `none` otherwise. -/
def digitVal (c : Char) : Option ℕ :=
  if c.isDigit then some (c.toNat - 48) else none

/-- Gregorian leap-year rule. -/
def isLeapYear (y : ℕ) : Bool :=
  (y % 4 == 0 && y % 100 != 0) || y % 400 == 0

/-- Days in a month, leap years included. -/
def daysInMonth (y m : ℕ) : ℕ :=
  if m = 2 then (if isLeapYear y then 29 else 28)
  else if m = 4 ∨ m = 6 ∨ m = 9 ∨ m = 11 then 30
  else 31

/-- The digit value at position `i` of a character list, `none` when out of
range or not a digit. -/
def numAt (cs : List Char) (i : ℕ) : Option ℕ :=
  (cs.get? i).bind digitVal

/-- The two-digit number at positions `i`, `i+1` of the character list. -/
def twoDigitsAt (cs : List Char) (i : ℕ) : Option ℕ := do
  let a ← numAt cs i
  let b ← numAt cs (i + 1)
  pure (a * 10 + b)

/-- Modelled from the spec: the script delegates date parsing to the external
`datetime.strptime` with the fixed format `%Y-%m-%d %H:%M:%S` (src/script.py
line 175), whose code is not part of this repository. Following the spec's
words — "parses a string in a fixed `YYYY-MM-DD HH:MM:SS` format" failing on
malformed input — a valid input is exactly four year digits and two digits
for each other field with the literal separators, denoting a calendar-valid
date (month 1-12, day within the month's length, leap years handled) and
time of day; anything else yields `none` (the `ValueError` branch). -/
def parseDateTime (s : String) : Option ParsedDateTime := do
  let cs := s.data
  guard (cs.length = 19)
  guard (cs.get? 4 = some '-' ∧ cs.get? 7 = some '-' ∧ cs.get? 10 = some ' ' ∧
         cs.get? 13 = some ':' ∧ cs.get? 16 = some ':')
  let yh ← twoDigitsAt cs 0
  let yl ← twoDigitsAt cs 2
  let year := yh * 100 + yl
  let month ← twoDigitsAt cs 5
  let day ← twoDigitsAt cs 8
  let hour ← twoDigitsAt cs 11
  let minute ← twoDigitsAt cs 14
  let second ← twoDigitsAt cs 17
  guard (1 ≤ month ∧ month ≤ 12 ∧ 1 ≤ day ∧ day ≤ daysInMonth year month ∧
         hour ≤ 23 ∧ minute ≤ 59 ∧ second ≤ 59)
  pure ⟨year, month, day, hour, minute, second⟩

/-- The explicit-time entry loop of `get_user_time` (src/script.py lines
171-183): keep prompting until a string parses; a `ValueError` from
`strptime` only prints the format reminder and re-prompts. -/
def get_explicit_time : List String → Option ParsedDateTime
  | [] => none
  | s :: rest =>
    match parseDateTime s with
    | some t => some t
    | none => get_explicit_time rest

/-- The three time-selection modes of `get_user_time`. -/
inductive TimeMode where
  | currentTime
  | explicitTime
  | tonight
deriving DecidableEq

/-- `get_user_time` from src/script.py lines 156-195, after the menu choice
is fixed: observation instants are rational hours on the UTC timeline,
`nowTime` is the instant captured by `Time.now()`, `instantOf` interprets a
parsed date-time on that timeline, and `inputs` are the pending date strings
for the explicit mode. Mode "tonight" is `Time.now() + 12 * u.hour`. -/
def get_user_time (mode : TimeMode) (nowTime : ℚ)
    (instantOf : ParsedDateTime → ℚ) (inputs : List String) : Option ℚ :=
  match mode with
  | .currentTime => some nowTime
  | .explicitTime => (get_explicit_time inputs).map instantOf
  | .tonight => some (nowTime + 12)

/-- Degrees to radians. -/
noncomputable def deg2rad (x : ℝ) : ℝ := x * (Real.pi / 180)

/-- Radians to degrees. -/
noncomputable def rad2deg (x : ℝ) : ℝ := x * (180 / Real.pi)

/-- The two-argument arctangent: the argument of the complex number
`x + y·i`, in `(-π, π]`. -/
noncomputable def atan2 (y x : ℝ) : ℝ := Complex.arg ⟨x, y⟩

/-- Normalize an angle from `(-π, π]` into `[0, 2π)` by adding a turn to
negative values. -/
noncomputable def normalizeAngle (a : ℝ) : ℝ :=
  if a < 0 then a + 2 * Real.pi else a

/-- Modelled from the spec: Greenwich Mean Sidereal Time in degrees as a
"standard polynomial" of the elapsed time `t` (days since the J2000.0
epoch); the script obtains it from the external astropy library, whose code
is not part of this repository. -/
noncomputable def gmstDeg (t : ℝ) : ℝ :=
  280.46061837 + 360.98564736629 * t

/-- The Hour Angle in radians: `H = LST - RA` with `LST = GST + lon`
(east-positive), spec §4.2 steps 2-3. -/
noncomputable def hourAngleRad (ra lon t : ℝ) : ℝ :=
  deg2rad (gmstDeg t + lon - ra)

/-- The altitude in degrees:
`Alt = arcsin(sin(Dec)·sin(Lat) + cos(Dec)·cos(Lat)·cos(H))` (spec §4.2 step 4). -/
noncomputable def altitudeDeg (ra dec lat lon t : ℝ) : ℝ :=
  rad2deg (Real.arcsin (Real.sin (deg2rad dec) * Real.sin (deg2rad lat) +
    Real.cos (deg2rad dec) * Real.cos (deg2rad lat) * Real.cos (hourAngleRad ra lon t)))

/-- The azimuth in degrees, clockwise from north: the two-argument arctangent
of the east component `-cos(Dec)·sin(H)` and the north component
`sin(Dec)·cos(Lat) - cos(Dec)·sin(Lat)·cos(H)`, normalized into `[0°, 360°)`
(spec §4.2 step 4); this form has no division, so it is defined at
`Dec = ±90°` and `Lat = ±90°`. -/
noncomputable def azimuthDeg (ra dec lat lon t : ℝ) : ℝ :=
  rad2deg (normalizeAngle (atan2
    (-(Real.cos (deg2rad dec) * Real.sin (hourAngleRad ra lon t)))
    (Real.sin (deg2rad dec) * Real.cos (deg2rad lat) -
      Real.cos (deg2rad dec) * Real.sin (deg2rad lat) * Real.cos (hourAngleRad ra lon t))))

/-- Modelled from the spec: the coordinate transform engine. The script
delegates it to the external astropy library
(`SkyCoord.transform_to(AltAz(obstime, location))`, src/script.py lines
312-320), whose code is not part of this repository; this definition follows
the spec's §4.2 design via `altitudeDeg` and `azimuthDeg`. All angles in
degrees, `t` in days since J2000.0; the result is `(altitude, azimuth)`. -/
noncomputable def equatorialToHorizontal (ra dec lat lon t : ℝ) : ℝ × ℝ :=
  (altitudeDeg ra dec lat lon t, azimuthDeg ra dec lat lon t)

/-! ## Helper lemmas -/

lemma calculate_visibility_cases (a : ℚ) :
    (30 < a ∧ calculate_visibility a = "Excellent - High in the sky, ideal for observation") ∨
    (15 < a ∧ a ≤ 30 ∧ calculate_visibility a = "Good - Reasonably high for observation") ∨
    (5 < a ∧ a ≤ 15 ∧
      calculate_visibility a = "Fair - Low in the sky, atmospheric effects noticeable") ∨
    (0 < a ∧ a ≤ 5 ∧
      calculate_visibility a = "Poor - Very low, near horizon. Wait for better time.") ∨
    (a ≤ 0 ∧ calculate_visibility a = "Not visible - Below horizon") := by
  unfold calculate_visibility
  split_ifs with h1 h2 h3 h4
  · exact Or.inl ⟨h1, rfl⟩
  · exact Or.inr (Or.inl ⟨h2, not_lt.mp h1, rfl⟩)
  · exact Or.inr (Or.inr (Or.inl ⟨h3, not_lt.mp h2, rfl⟩))
  · exact Or.inr (Or.inr (Or.inr (Or.inl ⟨h4, not_lt.mp h3, rfl⟩)))
  · exact Or.inr (Or.inr (Or.inr (Or.inr ⟨not_lt.mp h4, rfl⟩)))

lemma compass_idx_nonneg (az : ℚ) : 0 ≤ compass_idx az :=
  Int.emod_nonneg _ (by norm_num)

lemma compass_idx_lt_sixteen (az : ℚ) : compass_idx az < 16 :=
  Int.emod_lt_of_pos _ (by norm_num)

lemma compass_idx_toNat_lt (az : ℚ) : (compass_idx az).toNat < compass_points.length := by
  have h1 := compass_idx_nonneg az
  have h2 := compass_idx_lt_sixteen az
  show (compass_idx az).toNat < 16
  omega

/-! ## Claim theorems -/

/-- C2: the visibility classifier is a pure function from altitude to exactly
one of five ordered tiers with strict-greater-than thresholds: `> 30` is
Excellent, `> 15` is Good, `> 5` is Fair, `> 0` is Poor, `≤ 0` is Not
visible; an altitude of exactly 30 classifies as Good, not Excellent. -/
theorem visibility_tiers :
    (∀ a : ℚ, calculate_visibility a =
        "Excellent - High in the sky, ideal for observation" ↔ 30 < a) ∧
    (∀ a : ℚ, calculate_visibility a =
        "Good - Reasonably high for observation" ↔ 15 < a ∧ a ≤ 30) ∧
    (∀ a : ℚ, calculate_visibility a =
        "Fair - Low in the sky, atmospheric effects noticeable" ↔ 5 < a ∧ a ≤ 15) ∧
    (∀ a : ℚ, calculate_visibility a =
        "Poor - Very low, near horizon. Wait for better time." ↔ 0 < a ∧ a ≤ 5) ∧
    (∀ a : ℚ, calculate_visibility a = "Not visible - Below horizon" ↔ a ≤ 0) ∧
    calculate_visibility 30 = "Good - Reasonably high for observation" := by
  refine ⟨?_, ?_, ?_, ?_, ?_, ?_⟩
  · intro a
    constructor
    · intro h
      rcases calculate_visibility_cases a with ⟨hgt, _⟩ | ⟨_, _, he⟩ | ⟨_, _, he⟩ |
        ⟨_, _, he⟩ | ⟨_, he⟩
      · exact hgt
      · rw [he] at h; exact absurd h (by decide)
      · rw [he] at h; exact absurd h (by decide)
      · rw [he] at h; exact absurd h (by decide)
      · rw [he] at h; exact absurd h (by decide)
    · intro hgt
      unfold calculate_visibility
      rw [if_pos hgt]
  · intro a
    constructor
    · intro h
      rcases calculate_visibility_cases a with ⟨_, he⟩ | ⟨hl, hr, _⟩ | ⟨_, _, he⟩ |
        ⟨_, _, he⟩ | ⟨_, he⟩
      · rw [he] at h; exact absurd h (by decide)
      · exact ⟨hl, hr⟩
      · rw [he] at h; exact absurd h (by decide)
      · rw [he] at h; exact absurd h (by decide)
      · rw [he] at h; exact absurd h (by decide)
    · rintro ⟨hl, hr⟩
      unfold calculate_visibility
      rw [if_neg (not_lt.mpr hr), if_pos hl]
  · intro a
    constructor
    · intro h
      rcases calculate_visibility_cases a with ⟨_, he⟩ | ⟨_, _, he⟩ | ⟨hl, hr, _⟩ |
        ⟨_, _, he⟩ | ⟨_, he⟩
      · rw [he] at h; exact absurd h (by decide)
      · rw [he] at h; exact absurd h (by decide)
      · exact ⟨hl, hr⟩
      · rw [he] at h; exact absurd h (by decide)
      · rw [he] at h; exact absurd h (by decide)
    · rintro ⟨hl, hr⟩
      unfold calculate_visibility
      rw [if_neg (by push_neg; linarith), if_neg (not_lt.mpr hr), if_pos hl]
  · intro a
    constructor
    · intro h
      rcases calculate_visibility_cases a with ⟨_, he⟩ | ⟨_, _, he⟩ | ⟨_, _, he⟩ |
        ⟨hl, hr, _⟩ | ⟨_, he⟩
      · rw [he] at h; exact absurd h (by decide)
      · rw [he] at h; exact absurd h (by decide)
      · rw [he] at h; exact absurd h (by decide)
      · exact ⟨hl, hr⟩
      · rw [he] at h; exact absurd h (by decide)
    · rintro ⟨hl, hr⟩
      unfold calculate_visibility
      rw [if_neg (by push_neg; linarith), if_neg (by push_neg; linarith),
        if_neg (not_lt.mpr hr), if_pos hl]
  · intro a
    constructor
    · intro h
      rcases calculate_visibility_cases a with ⟨_, he⟩ | ⟨_, _, he⟩ | ⟨_, _, he⟩ |
        ⟨_, _, he⟩ | ⟨hle, _⟩
      · rw [he] at h; exact absurd h (by decide)
      · rw [he] at h; exact absurd h (by decide)
      · rw [he] at h; exact absurd h (by decide)
      · rw [he] at h; exact absurd h (by decide)
      · exact hle
    · intro hle
      unfold calculate_visibility
      rw [if_neg (by push_neg; linarith), if_neg (by push_neg; linarith),
        if_neg (by push_neg; linarith), if_neg (not_lt.mpr hle)]
  · norm_num [calculate_visibility]

/-- C3: the compass-direction function maps an azimuth to one of 16 compass
points via the index `round(az / 22.5) % 16`; azimuth 0° maps to "N", 359.9°
maps to "N" (wraparound), 180° to "S" and 90° to "E". -/
theorem compass_mapping :
    get_compass_direction 0 = some "N" ∧
    get_compass_direction (359.9 : ℚ) = some "N" ∧
    get_compass_direction 180 = some "S" ∧
    get_compass_direction 90 = some "E" ∧
    ∀ az : ℚ, ∃ s, get_compass_direction az = some s ∧ s ∈ compass_points := by
  refine ⟨?_, ?_, ?_, ?_, ?_⟩
  · norm_num [get_compass_direction, compass_idx, pyRound, compass_points]
  · norm_num [get_compass_direction, compass_idx, pyRound, compass_points]
  · norm_num [get_compass_direction, compass_idx, pyRound]
    decide
  · norm_num [get_compass_direction, compass_idx, pyRound]
    decide
  · intro az
    have hlt := compass_idx_toNat_lt az
    refine ⟨compass_points.get ⟨_, hlt⟩, ?_, List.get_mem _ _ _⟩
    unfold get_compass_direction
    exact List.get?_eq_get hlt

/-- C9: for every rational azimuth (negative or ≥ 360 included), the index
`round(az / 22.5) % 16` lies in `{0, ..., 15}`, so the lookup into the
16-element compass list is in bounds and the function returns `some` compass
string. -/
theorem compass_index_in_bounds :
    ∀ az : ℚ, 0 ≤ compass_idx az ∧ compass_idx az < 16 ∧
      (compass_idx az).toNat < compass_points.length ∧
      (get_compass_direction az).isSome = true := by
  intro az
  have h1 := compass_idx_nonneg az
  have h2 := compass_idx_lt_sixteen az
  have h3 := compass_idx_toNat_lt az
  refine ⟨h1, h2, h3, ?_⟩
  unfold get_compass_direction
  rw [List.get?_eq_get h3]
  rfl

/-- C4: the estimated hours until rise is `max((0 - alt) / 15, 0.1)`: it is
exactly 1 hour at altitude -15°, floors at 0.1 hour at altitude 0°, and is
never zero or negative (always at least 0.1). -/
theorem rise_time_estimate :
    hours_till_rise (-15) = 1 ∧
    hours_till_rise 0 = 1/10 ∧
    (∀ alt : ℚ, alt ≤ 0 → hours_till_rise alt = max ((0 - alt) / 15) (1/10)) ∧
    (∀ alt : ℚ, 1/10 ≤ hours_till_rise alt ∧ 0 < hours_till_rise alt) := by
  refine ⟨?_, ?_, ?_, ?_⟩
  · unfold hours_till_rise
    rw [max_eq_left (by norm_num)]
    norm_num
  · unfold hours_till_rise
    rw [max_eq_right (by norm_num)]
  · intro alt _
    rfl
  · intro alt
    refine ⟨le_max_right _ _, lt_of_lt_of_le (by norm_num) (le_max_right _ _)⟩

/-- C5: in explicit time mode the input is parsed against the fixed
`YYYY-MM-DD HH:MM:SS` format; the malformed string
`"2024-13-45 99:99:99"` is rejected, a rejected string re-prompts (the loop
continues on the remaining input), and any instant the loop produces comes
from an input that parsed successfully — an invalid date never reaches the
transform engine. -/
theorem explicit_time_rejects_invalid :
    parseDateTime "2024-13-45 99:99:99" = none ∧
    (∀ s rest, parseDateTime s = none →
      get_explicit_time (s :: rest) = get_explicit_time rest) ∧
    (∀ inputs t, get_explicit_time inputs = some t →
      ∃ s, s ∈ inputs ∧ parseDateTime s = some t) := by
  refine ⟨by decide, ?_, ?_⟩
  · intro s rest h
    simp [get_explicit_time, h]
  · intro inputs
    induction inputs with
    | nil =>
      intro t h
      simp [get_explicit_time] at h
    | cons s rest ih =>
      intro t h
      cases hp : parseDateTime s with
      | some u =>
        simp only [get_explicit_time, hp, Option.some.injEq] at h
        exact ⟨s, List.mem_cons_self _ _, by rw [hp, h]⟩
      | none =>
        simp only [get_explicit_time, hp] at h
        obtain ⟨s', hmem, hps⟩ := ih t h
        exact ⟨s', List.mem_cons_of_mem _ hmem, hps⟩

/-- C6: every geocode call uses the fixed timeout of 10; on a geocoder
timeout or service error the city loop returns the hardcoded default
location and prints the fallback announcement (never silent); and the loop's
behaviour depends on the geocoder only through its responses at that fixed
timeout. -/
theorem geocode_fallback :
    geocodeTimeoutSeconds = 10 ∧
    (∀ (g : String → ℕ → GeoResponse) (s : String) (rest : List String),
      pyStrip s ≠ "" →
      (g (pyStrip s) geocodeTimeoutSeconds = GeoResponse.timedOut ∨
       g (pyStrip s) geocodeTimeoutSeconds = GeoResponse.serviceError) →
      get_location_by_city g (s :: rest) =
        some (defaultLocation,
          ["Geocoding service error. Using default location: New York, USA"])) ∧
    (∀ (g₁ g₂ : String → ℕ → GeoResponse) (inputs : List String),
      (∀ q, g₁ q geocodeTimeoutSeconds = g₂ q geocodeTimeoutSeconds) →
      get_location_by_city g₁ inputs = get_location_by_city g₂ inputs) := by
  refine ⟨rfl, ?_, ?_⟩
  · intro g s rest hne hor
    simp only [get_location_by_city]
    rw [if_neg hne]
    rcases hor with h | h <;> rw [h]
  · intro g₁ g₂ inputs hg
    induction inputs with
    | nil => rfl
    | cons s rest ih =>
      simp only [get_location_by_city]
      rw [hg (pyStrip s)]
      by_cases ht : pyStrip s = ""
      · rw [if_pos ht, if_pos ht]
      · rw [if_neg ht, if_neg ht]
        cases g₂ (pyStrip s) geocodeTimeoutSeconds <;> simp [ih]

/-- C7 counterexample: a non-numeric latitude in coordinate-entry mode does
not re-prompt — the function returns the default location and ignores the
remaining (parseable) inputs, so consuming a bad first input is not
equivalent to retrying on the rest. -/
theorem coordinate_entry_no_reprompt :
    get_location_by_coordinates [none, some 1, some 2] = defaultLocation ∧
    get_location_by_coordinates [some 1, some 2] = (1, 2) ∧
    defaultLocation ≠ ((1 : ℚ), (2 : ℚ)) ∧
    ¬ (∀ rest, get_location_by_coordinates (none :: rest) =
        get_location_by_coordinates rest) := by
  refine ⟨rfl, rfl, ?_, ?_⟩
  · intro h
    rw [Prod.ext_iff] at h
    have := h.1
    norm_num [defaultLocation] at this
  · intro h
    have h1 := h [some 1, some 2]
    rw [show get_location_by_coordinates [none, some 1, some 2] = defaultLocation from rfl,
        show get_location_by_coordinates [some 1, some 2] = (1, 2) from rfl] at h1
    rw [Prod.ext_iff] at h1
    have := h1.1
    norm_num [defaultLocation] at this

/-- C7 as amended: unparseable numeric input is never fatal and is recovered
locally — the date and nebula-number loops re-prompt (an unparseable or
out-of-range entry makes the loop continue on the remaining input), while a
non-numeric latitude or longitude in coordinate-entry mode is recovered by
falling back to the default location without re-prompting. -/
theorem input_parse_recovery :
    (∀ rest, chooseNebula (none :: rest) = chooseNebula rest) ∧
    (∀ (n : ℤ) rest, (n < 1 ∨ 13 < n) →
      chooseNebula (some n :: rest) = chooseNebula rest) ∧
    (∀ s rest, parseDateTime s = none →
      get_explicit_time (s :: rest) = get_explicit_time rest) ∧
    (∀ rest, get_location_by_coordinates (none :: rest) = defaultLocation) ∧
    (∀ (lat : ℚ) rest,
      get_location_by_coordinates (some lat :: none :: rest) = defaultLocation) := by
  refine ⟨fun _ => rfl, ?_, ?_, fun _ => rfl, fun _ _ => rfl⟩
  · intro n rest h
    simp only [chooseNebula]
    rw [if_neg (by omega)]
  · intro s rest h
    simp [get_explicit_time, h]

/-- C8: in "tonight" mode the time resolver returns the captured current UTC
instant advanced by exactly 12 hours, independently of the pending date
inputs and of how parsed date-times would be interpreted (no sunset or
declination/season dependence). -/
theorem tonight_mode_offset :
    ∀ (nowTime : ℚ) (instantOf : ParsedDateTime → ℚ) (inputs : List String),
      get_user_time TimeMode.tonight nowTime instantOf inputs = some (nowTime + 12) ∧
      ∀ (instantOf2 : ParsedDateTime → ℚ) (inputs2 : List String),
        get_user_time TimeMode.tonight nowTime instantOf inputs =
          get_user_time TimeMode.tonight nowTime instantOf2 inputs2 :=
  fun _ _ _ => ⟨rfl, fun _ _ => rfl⟩

/-- C10: an empty (or whitespace-only) string at the city prompt returns the
default location (40.7128, -74.0060) immediately; the result does not depend
on the geocoder, which is never invoked. -/
theorem empty_city_input_default (g : String → ℕ → GeoResponse)
    (rest : List String) (s : String) (h : pyStrip s = "") :
    get_location_by_city g (s :: rest) =
      some (defaultLocation, ["Using default location: New York, USA"]) ∧
    defaultLocation = (40.7128, -74.0060) := by
  constructor
  · simp only [get_location_by_city]
    rw [if_pos h]
  · rfl

/-- Witness for C10 at the concrete whitespace-only input `"   "` with a
geocoder that would report not-found if it were consulted. -/
theorem empty_city_input_default_witness :
    pyStrip "   " = "" ∧
    get_location_by_city (fun _ _ => GeoResponse.notFound) ["   "] =
      some (defaultLocation, ["Using default location: New York, USA"]) :=
  ⟨by decide,
    (empty_city_input_default (fun _ _ => GeoResponse.notFound) [] "   " (by decide)).1⟩

lemma rad2deg_arcsin_mem (x : ℝ) :
    -90 ≤ rad2deg (Real.arcsin x) ∧ rad2deg (Real.arcsin x) ≤ 90 := by
  have hne : Real.pi ≠ 0 := Real.pi_ne_zero
  have hπ : (0:ℝ) < Real.pi := Real.pi_pos
  have h1 : -(Real.pi/2) ≤ Real.arcsin x := Real.neg_pi_div_two_le_arcsin x
  have h2 : Real.arcsin x ≤ Real.pi/2 := Real.arcsin_le_pi_div_two x
  have hc : (0:ℝ) ≤ 180 / Real.pi := by positivity
  have heq1 : -(Real.pi/2) * (180 / Real.pi) = -90 := by
    field_simp
    ring
  have heq2 : (Real.pi/2) * (180 / Real.pi) = 90 := by
    field_simp
    ring
  unfold rad2deg
  constructor
  · calc (-90 : ℝ) = -(Real.pi/2) * (180 / Real.pi) := heq1.symm
      _ ≤ Real.arcsin x * (180 / Real.pi) := mul_le_mul_of_nonneg_right h1 hc
  · calc Real.arcsin x * (180 / Real.pi) ≤ (Real.pi/2) * (180 / Real.pi) :=
        mul_le_mul_of_nonneg_right h2 hc
    _ = 90 := heq2

lemma normalizeAngle_mem (a : ℝ) (hlo : -Real.pi < a) (hhi : a ≤ Real.pi) :
    0 ≤ normalizeAngle a ∧ normalizeAngle a < 2 * Real.pi := by
  have hπ : (0:ℝ) < Real.pi := Real.pi_pos
  unfold normalizeAngle
  split_ifs with hneg
  · constructor <;> linarith
  · push_neg at hneg
    constructor <;> linarith

lemma rad2deg_turn_mem (v : ℝ) (h0 : 0 ≤ v) (h2 : v < 2 * Real.pi) :
    0 ≤ rad2deg v ∧ rad2deg v < 360 := by
  have hne : Real.pi ≠ 0 := Real.pi_ne_zero
  have hπ : (0:ℝ) < Real.pi := Real.pi_pos
  have hc : (0:ℝ) < 180 / Real.pi := by positivity
  unfold rad2deg
  constructor
  · positivity
  · have hlt : v * (180 / Real.pi) < (2 * Real.pi) * (180 / Real.pi) :=
      mul_lt_mul_of_pos_right h2 hc
    have heq : (2 * Real.pi) * (180 / Real.pi) = 360 := by
      field_simp
      ring
    linarith

lemma rad2deg_normalizeAngle_atan2_mem (y x : ℝ) :
    0 ≤ rad2deg (normalizeAngle (atan2 y x)) ∧
      rad2deg (normalizeAngle (atan2 y x)) < 360 := by
  unfold atan2
  obtain ⟨hlo, hhi⟩ := Complex.arg_mem_Ioc (⟨x, y⟩ : ℂ)
  have hn := normalizeAngle_mem (Complex.arg ⟨x, y⟩) hlo hhi
  exact rad2deg_turn_mem _ hn.1 hn.2

/-- C1: the coordinate transform is a deterministic, total (no-exception)
pure function of its inputs; for every input — well-formed or not — the
altitude lies in [-90°, 90°], the azimuth lies in [0°, 360°), and
transforming the same input twice yields identical results. -/
theorem transform_output_ranges :
    ∀ ra dec lat lon t : ℝ,
      -90 ≤ (equatorialToHorizontal ra dec lat lon t).1 ∧
      (equatorialToHorizontal ra dec lat lon t).1 ≤ 90 ∧
      0 ≤ (equatorialToHorizontal ra dec lat lon t).2 ∧
      (equatorialToHorizontal ra dec lat lon t).2 < 360 ∧
      equatorialToHorizontal ra dec lat lon t = equatorialToHorizontal ra dec lat lon t := by
  intro ra dec lat lon t
  have halt := rad2deg_arcsin_mem (Real.sin (deg2rad dec) * Real.sin (deg2rad lat) +
    Real.cos (deg2rad dec) * Real.cos (deg2rad lat) * Real.cos (hourAngleRad ra lon t))
  have haz := rad2deg_normalizeAngle_atan2_mem
    (-(Real.cos (deg2rad dec) * Real.sin (hourAngleRad ra lon t)))
    (Real.sin (deg2rad dec) * Real.cos (deg2rad lat) -
      Real.cos (deg2rad dec) * Real.sin (deg2rad lat) * Real.cos (hourAngleRad ra lon t))
  exact ⟨halt.1, halt.2, haz.1, haz.2, rfl⟩

end Nebula
